import Mathlib

/-!
Shallow embedding of the media_peeping_tom repository's data-access layer
(src/media-viz/src/lib/db.ts), its type definitions
(src/media-viz/src/lib/types.ts) and the data-proxy endpoint
(src/unnamed/part_001), together with theorems settling the spec claims.

Modelling conventions:
- Timestamps are `Int` milliseconds since the Unix epoch; a JS `Date` is its
  millisecond value, so `new Date(n)` is the identity on `n` and
  `new Date(null)` is `0` (the epoch).
- The DuckDB connection is the list of rows of the `sessions` view; each SQL
  query is embedded by its semantics (filter / group / sort / limit) on that
  list.  `ORDER BY` is embedded as `List.insertionSort` with the ordering
  relation of the ORDER BY clause (SQL leaves tie order unspecified; the
  claims only concern sortedness, membership and length, which are
  order-of-ties independent).
- `Date.prototype.getTimezoneOffset` is a parameter `tz : Int → Int` giving
  the local offset in minutes as a function of the instant (it varies with
  DST).
- `cutoffDate.setDate(getDate() - n)` subtracts n calendar days; we model a
  fixed-offset calendar, where that is exactly n * 86400000 ms.
- Module-level mutable state (`db`, `conn`) is an explicit `DBState`; the
  side effects of `initDB` are reified as a list of `InitEvent`s.
-/

namespace MediaViz

/-- MediaType from types.ts: 'Music' | 'Video'. -/
inductive MediaType where
  | music
  | video
deriving DecidableEq, Repr

/-- The string stored in the media_type column, as interpolated into the SQL. -/
def mtString : MediaType → String
  | MediaType.music => "Music"
  | MediaType.video => "Video"

/-- Dimension from types.ts: 'artist' | 'device_name' | 'title' | 'album' | 'series_name'. -/
inductive Dimension where
  | artist
  | device_name
  | title
  | album
  | series_name
deriving DecidableEq, Repr

/-- TimeRange from types.ts: 'day' | 'week' | 'month'. -/
inductive TimeRange where
  | day
  | week
  | month
deriving DecidableEq, Repr

/-- CountBy from db.ts: 'sessions' | 'time'. -/
inductive CountBy where
  | sessions
  | time
deriving DecidableEq, Repr

/-- A row of the `sessions` view (the columns the four queries read).
Nullable columns are `Option`. -/
structure SessionRow where
  device_name : Option String
  title : Option String
  artist : Option String
  album : Option String
  series_name : Option String
  media_type : String
  app : Option String
  session_start : Int
  session_end : Int
  watch_time_seconds : Option Int
  completion_pct : Option Int
deriving DecidableEq, Repr

/-- TopNResult from types.ts. -/
structure TopNResult where
  label : String
  count : Int
deriving DecidableEq, Repr

/-- TimelineSession from db.ts (device_name is cast non-null; timestamps are
converted through timestampToLocal). -/
structure TimelineSession where
  device_name : String
  title : Option String
  artist : Option String
  album : Option String
  series_name : Option String
  media_type : String
  app : Option String
  session_start : Int
  session_end : Int
  watch_time_seconds : Option Int
  completion_pct : Option Int
deriving DecidableEq, Repr

/-- Module-level state of db.ts: `db` (engine object, modelled by whether it
is non-null) and `conn` (connection; when present it carries the rows of the
`sessions` view). -/
structure DBState where
  db : Bool
  conn : Option (List SessionRow)

/-- Response.ok of the WHATWG fetch API: status in the inclusive range 200..299. -/
def respOk (status : Nat) : Bool :=
  decide (200 ≤ status) && decide (status ≤ 299)

/-- Environment of one initDB run: the HTTP status of the parquet fetch and
the rows the fetched parquet file decodes to. -/
structure InitEnv where
  fetchStatus : Nat
  fetchRows : List SessionRow

/-- Observable side effects of initDB, in program order. -/
inductive InitEvent where
  | instantiateEngine
  | fetchData
  | registerFile
  | connectDB
  | createView
deriving DecidableEq, Repr

/-- initDB from db.ts: early-returns when `db` is already set; otherwise
instantiates the engine (assigning `db`), fetches the parquet file, throws on
a non-ok response (with `db` already assigned and `conn` untouched), else
registers the buffer, connects and creates the `sessions` view. -/
def initDB (env : InitEnv) (st : DBState) : DBState × List InitEvent × Except String Unit :=
  if st.db then (st, [], Except.ok ())
  else if respOk env.fetchStatus then
    (⟨true, some env.fetchRows⟩,
     [InitEvent.instantiateEngine, InitEvent.fetchData, InitEvent.registerFile,
      InitEvent.connectDB, InitEvent.createView],
     Except.ok ())
  else
    (⟨true, st.conn⟩,
     [InitEvent.instantiateEngine, InitEvent.fetchData],
     Except.error ("Failed to fetch parquet: " ++ toString env.fetchStatus))

/-- ORDER BY session_start DESC. -/
def startDesc (a b : SessionRow) : Prop :=
  b.session_start ≤ a.session_start

instance : DecidableRel startDesc := fun a b => Int.decLe b.session_start a.session_start

instance : IsTotal SessionRow startDesc :=
  ⟨fun a b => le_total b.session_start a.session_start⟩

instance : IsTrans SessionRow startDesc :=
  ⟨fun _ _ _ h1 h2 => le_trans h2 h1⟩

/-- getRecentSessions from db.ts: WHERE media_type = mediaType,
ORDER BY session_start DESC, LIMIT limit; the result map converts the two
timestamps with `new Date`, the identity in this model. -/
def getRecentSessions (st : DBState) (mt : MediaType) (lim : Nat) :
    Except String (List SessionRow) :=
  match st.conn with
  | none => Except.error "Database not initialized"
  | some rows =>
      Except.ok
        ((List.insertionSort startDesc
            (rows.filter (fun r => r.media_type == mtString mt))).take lim)

/-- The number of days subtracted from `now` for each TimeRange. -/
def timeRangeDays : TimeRange → Int
  | TimeRange.day => 1
  | TimeRange.week => 7
  | TimeRange.month => 30

/-- The caller-side cutoff: `now` minus 1/7/30 calendar days
(`cutoffDate.setDate(cutoffDate.getDate() - n)`), in milliseconds. -/
def cutoffMs (now : Int) (tr : TimeRange) : Int :=
  now - timeRangeDays tr * 86400000

/-- The column named by a Dimension, read from a row. -/
def dimVal : Dimension → SessionRow → Option String
  | Dimension.artist, r => r.artist
  | Dimension.device_name, r => r.device_name
  | Dimension.title, r => r.title
  | Dimension.album, r => r.album
  | Dimension.series_name, r => r.series_name

/-- The WHERE clause of getTopByDimension: session_start >= cutoff,
dimension IS NOT NULL, dimension != , and the optional media_type filter.
Note there is no upper bound on session_start. -/
def topFilter (now : Int) (d : Dimension) (tr : TimeRange) (mt : Option MediaType)
    (r : SessionRow) : Bool :=
  decide (cutoffMs now tr ≤ r.session_start) &&
  (dimVal d r).isSome &&
  decide (dimVal d r ≠ some "") &&
  (match mt with
   | none => true
   | some m => r.media_type == mtString m)

/-- The rows of the sessions view passing getTopByDimension's WHERE clause:
exactly the sessions that can contribute to a group. -/
def topFiltered (rows : List SessionRow) (now : Int) (d : Dimension) (tr : TimeRange)
    (mt : Option MediaType) : List SessionRow :=
  rows.filter (topFilter now d tr mt)

/-- The distinct labels produced by GROUP BY dimension. -/
def topLabels (rows : List SessionRow) (now : Int) (d : Dimension) (tr : TimeRange)
    (mt : Option MediaType) : List String :=
  ((topFiltered rows now d tr mt).map (fun r => (dimVal d r).getD "")).dedup

/-- The sessions aggregated into the group with a given label. -/
def groupRows (rows : List SessionRow) (now : Int) (d : Dimension) (tr : TimeRange)
    (mt : Option MediaType) (lab : String) : List SessionRow :=
  (topFiltered rows now d tr mt).filter (fun r => dimVal d r == some lab)

/-- The aggregation of getTopByDimension: COUNT(*) or
COALESCE(SUM(watch_time_seconds), 0) (SUM ignores NULLs; COALESCE makes the
all-NULL/empty case 0). -/
def aggOf (cb : CountBy) (l : List SessionRow) : Int :=
  match cb with
  | CountBy.sessions => l.length
  | CountBy.time => (l.map (fun r => r.watch_time_seconds.getD 0)).sum

/-- The grouped, aggregated rows before ORDER BY / LIMIT. -/
def topGroups (rows : List SessionRow) (now : Int) (d : Dimension) (tr : TimeRange)
    (mt : Option MediaType) (cb : CountBy) : List TopNResult :=
  (topLabels rows now d tr mt).map
    (fun lab => ⟨lab, aggOf cb (groupRows rows now d tr mt lab)⟩)

/-- ORDER BY count DESC. -/
def countDesc (a b : TopNResult) : Prop :=
  b.count ≤ a.count

instance : DecidableRel countDesc := fun a b => Int.decLe b.count a.count

instance : IsTotal TopNResult countDesc :=
  ⟨fun a b => le_total b.count a.count⟩

instance : IsTrans TopNResult countDesc :=
  ⟨fun _ _ _ h1 h2 => le_trans h2 h1⟩

/-- getTopByDimension from db.ts: the cutoff is computed caller-side from
`now` (`new Date()`), then the templated query filters, groups, aggregates,
orders by count DESC and limits. -/
def getTopByDimension (st : DBState) (now : Int) (d : Dimension) (tr : TimeRange)
    (lim : Nat) (mt : Option MediaType) (cb : CountBy) :
    Except String (List TopNResult) :=
  match st.conn with
  | none => Except.error "Database not initialized"
  | some rows =>
      Except.ok ((List.insertionSort countDesc (topGroups rows now d tr mt cb)).take lim)

/-- MIN(session_start) over the view: NULL (none) on an empty view. -/
def minStart : List SessionRow → Option Int
  | [] => none
  | r :: rs => some ((rs.map SessionRow.session_start).foldl min r.session_start)

/-- MAX(session_start) over the view: NULL (none) on an empty view. -/
def maxStart : List SessionRow → Option Int
  | [] => none
  | r :: rs => some ((rs.map SessionRow.session_start).foldl max r.session_start)

/-- `new Date(x)` applied to a possibly-NULL number: JS coerces null to 0,
so NULL yields the Unix epoch. -/
def dateOfNullable (o : Option Int) : Int :=
  o.getD 0

/-- The record getTimeRange resolves with. -/
structure DateRange where
  min : Int
  max : Int
deriving DecidableEq, Repr

/-- getTimeRange from db.ts: SELECT MIN(session_start), MAX(session_start),
each wrapped in `new Date`. -/
def getTimeRange (st : DBState) : Except String DateRange :=
  match st.conn with
  | none => Except.error "Database not initialized"
  | some rows =>
      Except.ok ⟨dateOfNullable (minStart rows), dateOfNullable (maxStart rows)⟩

/-- timestampToLocal from db.ts: `new Date(t + getTimezoneOffset(t) * 60 * 1000)`,
with the offset read from the raw instant. -/
def timestampToLocal (tz : Int → Int) (t : Int) : Int :=
  t + tz t * 60 * 1000

/-- The device_name column as a sort key (the query guarantees it non-null;
the code casts it to string). -/
def devKey (r : SessionRow) : String :=
  r.device_name.getD ""

/-- ORDER BY device_name, session_start (ascending lexicographic). -/
def deviceStartLe (a b : SessionRow) : Prop :=
  devKey a < devKey b ∨ (devKey a = devKey b ∧ a.session_start ≤ b.session_start)

instance : DecidableRel deviceStartLe := fun a b =>
  inferInstanceAs
    (Decidable (devKey a < devKey b ∨ (devKey a = devKey b ∧ a.session_start ≤ b.session_start)))

instance : IsTotal SessionRow deviceStartLe := by
  refine ⟨fun a b => ?_⟩
  rcases lt_trichotomy (devKey a) (devKey b) with h | h | h
  · exact Or.inl (Or.inl h)
  · rcases le_total a.session_start b.session_start with h2 | h2
    · exact Or.inl (Or.inr ⟨h, h2⟩)
    · exact Or.inr (Or.inr ⟨h.symm, h2⟩)
  · exact Or.inr (Or.inl h)

instance : IsTrans SessionRow deviceStartLe := by
  refine ⟨fun a b c hab hbc => ?_⟩
  rcases hab with h1 | ⟨h1, h1s⟩
  · rcases hbc with h2 | ⟨h2, _⟩
    · exact Or.inl (lt_trans h1 h2)
    · exact Or.inl (lt_of_lt_of_le h1 (le_of_eq h2))
  · rcases hbc with h2 | ⟨h2, h2s⟩
    · exact Or.inl (lt_of_le_of_lt (le_of_eq h1) h2)
    · exact Or.inr ⟨h1.trans h2, le_trans h1s h2s⟩

/-- The WHERE clause of getTimelineSessions: start <= session_start <= end on
the raw stored timestamp, device_name IS NOT NULL. -/
def timelineFilter (s e : Int) (r : SessionRow) : Bool :=
  decide (s ≤ r.session_start) && decide (r.session_start ≤ e) && r.device_name.isSome

/-- The raw rows getTimelineSessions receives from the engine: filtered, then
ORDER BY device_name, session_start. -/
def timelineQuery (rows : List SessionRow) (s e : Int) : List SessionRow :=
  List.insertionSort deviceStartLe (rows.filter (timelineFilter s e))

/-- The per-row conversion in getTimelineSessions' result map: casts
device_name non-null and pushes both timestamps through timestampToLocal. -/
def timelineConvert (tz : Int → Int) (r : SessionRow) : TimelineSession :=
  ⟨r.device_name.getD "", r.title, r.artist, r.album, r.series_name, r.media_type,
   r.app, timestampToLocal tz r.session_start, timestampToLocal tz r.session_end,
   r.watch_time_seconds, r.completion_pct⟩

/-- getTimelineSessions from db.ts. -/
def getTimelineSessions (tz : Int → Int) (st : DBState) (s e : Int) :
    Except String (List TimelineSession) :=
  match st.conn with
  | none => Except.error "Database not initialized"
  | some rows => Except.ok ((timelineQuery rows s e).map (timelineConvert tz))

/-- Body of an HTTP response of the proxy: either response text or raw bytes. -/
inductive RespBody where
  | text (s : String)
  | bytes (b : List Nat)
deriving DecidableEq, Repr

/-- The upstream fetch result seen by the proxy handler. -/
structure UpstreamResp where
  status : Nat
  body : List Nat
deriving DecidableEq, Repr

/-- The Response the proxy handler returns. -/
structure ProxyResp where
  status : Nat
  body : RespBody
  headers : List (String × String)
deriving DecidableEq, Repr

/-- GET handler of the data proxy (src/unnamed/part_001): on a non-ok
upstream response, a text error Response carrying the upstream status; on
success, the raw bytes with the binary content type and 5-minute public
cache header (status 200, the Response default). -/
def proxyGET (up : UpstreamResp) : ProxyResp :=
  if respOk up.status then
    ⟨200, RespBody.bytes up.body,
     [("Content-Type", "application/octet-stream"),
      ("Cache-Control", "public, max-age=300")]⟩
  else
    ⟨up.status, RespBody.text "Failed to fetch parquet file", []⟩

/-! ## Helper lemmas -/

/-- A prefix of an insertion-sorted list is sorted. -/
theorem sorted_take_insertionSort {α : Type} (r : α → α → Prop) [DecidableRel r]
    [IsTotal α r] [IsTrans α r] (l : List α) (n : Nat) :
    List.Sorted r ((List.insertionSort r l).take n) :=
  List.Pairwise.sublist (List.take_sublist _ _) (List.sorted_insertionSort r l)

/-- Membership in a prefix of an insertion-sorted list implies membership in
the original list. -/
theorem mem_of_mem_take_insertionSort {α : Type} {r : α → α → Prop} [DecidableRel r]
    {l : List α} {n : Nat} {x : α} (h : x ∈ (List.insertionSort r l).take n) : x ∈ l :=
  (List.mem_insertionSort r).mp ((List.take_sublist _ _).subset h)

/-- Unfolding of the top-N WHERE clause into its conjuncts. -/
theorem topFilter_eq_true_iff (now : Int) (d : Dimension) (tr : TimeRange)
    (mt : Option MediaType) (r : SessionRow) :
    topFilter now d tr mt r = true ↔
      (cutoffMs now tr ≤ r.session_start ∧ (dimVal d r).isSome = true ∧
       dimVal d r ≠ some "" ∧ ∀ m, mt = some m → r.media_type = mtString m) := by
  cases mt with
  | none => simp [topFilter, Bool.and_eq_true, decide_eq_true_eq, and_assoc]
  | some m => simp [topFilter, Bool.and_eq_true, decide_eq_true_eq, and_assoc]

/-- Every label produced by the GROUP BY is a non-null, non-empty dimension
value of some filtered row. -/
theorem mem_topLabels_ne_empty {rows : List SessionRow} {now : Int} {d : Dimension}
    {tr : TimeRange} {mt : Option MediaType} {lab : String}
    (h : lab ∈ topLabels rows now d tr mt) : lab ≠ "" := by
  unfold topLabels at h
  rw [List.mem_dedup, List.mem_map] at h
  obtain ⟨r, hr, hlab⟩ := h
  unfold topFiltered at hr
  rw [List.mem_filter] at hr
  obtain ⟨-, hp⟩ := hr
  rw [topFilter_eq_true_iff] at hp
  obtain ⟨-, hsome, hne, -⟩ := hp
  obtain ⟨v, hv⟩ := Option.isSome_iff_exists.mp hsome
  rw [hv] at hlab hne
  intro hcon
  apply hne
  rw [Option.getD_some] at hlab
  rw [hlab, hcon]

/-- Unfolding of the timeline WHERE clause into its conjuncts. -/
theorem timelineFilter_eq_true_iff (s e : Int) (r : SessionRow) :
    timelineFilter s e r = true ↔
      (s ≤ r.session_start ∧ r.session_start ≤ e ∧ r.device_name.isSome = true) := by
  simp [timelineFilter, Bool.and_eq_true, decide_eq_true_eq, and_assoc]

/-! ## Claim theorems -/

/-- C2: for every valid combination of dimension, timeRange and optional
mediaType, and every limit, getTopByDimension returns at most limit rows,
sorted by count descending, with no empty (or null) label. -/
theorem topByDimension_shape (st : DBState) (rows : List SessionRow) (now : Int)
    (d : Dimension) (tr : TimeRange) (lim : Nat) (mt : Option MediaType) (cb : CountBy)
    (out : List TopNResult) (hconn : st.conn = some rows)
    (hout : getTopByDimension st now d tr lim mt cb = Except.ok out) :
    out.length ≤ lim ∧ List.Sorted countDesc out ∧ ∀ g ∈ out, g.label ≠ "" := by
  unfold getTopByDimension at hout
  rw [hconn] at hout
  have hval : out = (List.insertionSort countDesc (topGroups rows now d tr mt cb)).take lim := by
    cases hout
    rfl
  subst hval
  refine ⟨List.length_take_le _ _, sorted_take_insertionSort _ _ _, ?_⟩
  intro g hg
  have hmem : g ∈ topGroups rows now d tr mt cb := mem_of_mem_take_insertionSort hg
  unfold topGroups at hmem
  rw [List.mem_map] at hmem
  obtain ⟨lab, hlab, hgl⟩ := hmem
  have : g.label = lab := by rw [← hgl]
  rw [this]
  exact mem_topLabels_ne_empty hlab

/-- C7: every row returned by getRecentSessions has media_type equal to the
argument, the list is sorted by session_start descending, and its length is
at most limit. -/
theorem recentSessions_shape (st : DBState) (rows : List SessionRow) (mt : MediaType)
    (lim : Nat) (out : List SessionRow) (hconn : st.conn = some rows)
    (hout : getRecentSessions st mt lim = Except.ok out) :
    (∀ x ∈ out, x.media_type = mtString mt) ∧ List.Sorted startDesc out ∧
      out.length ≤ lim := by
  unfold getRecentSessions at hout
  rw [hconn] at hout
  have hval : out = (List.insertionSort startDesc
      (rows.filter (fun r => r.media_type == mtString mt))).take lim := by
    cases hout
    rfl
  subst hval
  refine ⟨?_, sorted_take_insertionSort _ _ _, List.length_take_le _ _⟩
  intro x hx
  have hmem : x ∈ rows.filter (fun r => r.media_type == mtString mt) :=
    mem_of_mem_take_insertionSort hx
  rw [List.mem_filter] at hmem
  exact beq_iff_eq.mp hmem.2

/-- C1 (amended): every group returned by getTopByDimension aggregates
exactly the matching rows of topFiltered, and every row of topFiltered has
session_start at or after the caller-side cutoff now - days(timeRange) *
86400000 ms (1/7/30 days); there is no upper bound, so sessions starting
after now are not excluded. -/
theorem topByDimension_lower_cutoff_only (st : DBState) (rows : List SessionRow)
    (now : Int) (d : Dimension) (tr : TimeRange) (lim : Nat) (mt : Option MediaType)
    (cb : CountBy) (out : List TopNResult) (hconn : st.conn = some rows)
    (hout : getTopByDimension st now d tr lim mt cb = Except.ok out) :
    (∀ g ∈ out, g.count = aggOf cb (groupRows rows now d tr mt g.label)) ∧
    (∀ r ∈ topFiltered rows now d tr mt,
      now - timeRangeDays tr * 86400000 ≤ r.session_start) ∧
    timeRangeDays TimeRange.day = 1 ∧ timeRangeDays TimeRange.week = 7 ∧
    timeRangeDays TimeRange.month = 30 := by
  unfold getTopByDimension at hout
  rw [hconn] at hout
  have hval : out = (List.insertionSort countDesc (topGroups rows now d tr mt cb)).take lim := by
    cases hout
    rfl
  subst hval
  refine ⟨?_, ?_, rfl, rfl, rfl⟩
  · intro g hg
    have hmem : g ∈ topGroups rows now d tr mt cb := mem_of_mem_take_insertionSort hg
    unfold topGroups at hmem
    rw [List.mem_map] at hmem
    obtain ⟨lab, -, hgl⟩ := hmem
    rw [← hgl]
  · intro r hr
    unfold topFiltered at hr
    rw [List.mem_filter] at hr
    exact (topFilter_eq_true_iff now d tr mt r).mp hr.2 |>.1

/-- A session row dated in the future relative to the query instant used in
the C1 counterexample. -/
def futureRow : SessionRow :=
  ⟨some "dev", some "t", some "Artist A", some "al", some "ser", "Music",
   some "app", 5, 6, some 10, some 50⟩

/-- C1 (counterexample): with now = 0, a session whose session_start = 5 lies
after now, yet it passes the WHERE clause and is aggregated into the group
returned by getTopByDimension — the query has no upper time bound, refuting
the claim that every group aggregates only sessions within
[now - timeRange, now]. -/
theorem topByDimension_future_session_counted :
    ∃ out, getTopByDimension ⟨true, some [futureRow]⟩ 0 Dimension.artist TimeRange.day
        10 none CountBy.sessions = Except.ok out ∧
      ∃ g ∈ out, ∃ r ∈ groupRows [futureRow] 0 Dimension.artist TimeRange.day none g.label,
        (0 : Int) < r.session_start := by
  refine ⟨_, rfl, ?_⟩
  decide

/-- C3 (amended): every row returned by getTimelineSessions is the converted
image of a raw engine row; every raw row has a non-null device_name and a raw
session_start within [startDate, endDate]; and the raw rows are sorted by
device_name then session_start ascending.  The returned session_start is the
raw value shifted by the local timezone offset, so the interval bound holds
for the raw timestamps, not the adjusted ones. -/
theorem timelineSessions_raw_bounds (tz : Int → Int) (st : DBState)
    (rows : List SessionRow) (s e : Int) (out : List TimelineSession)
    (hconn : st.conn = some rows)
    (hout : getTimelineSessions tz st s e = Except.ok out) :
    out = (timelineQuery rows s e).map (timelineConvert tz) ∧
    (∀ r ∈ timelineQuery rows s e,
      r.device_name.isSome = true ∧ s ≤ r.session_start ∧ r.session_start ≤ e) ∧
    List.Sorted deviceStartLe (timelineQuery rows s e) := by
  unfold getTimelineSessions at hout
  rw [hconn] at hout
  have hval : out = (timelineQuery rows s e).map (timelineConvert tz) := by
    cases hout
    rfl
  refine ⟨hval, ?_, List.sorted_insertionSort _ _⟩
  intro r hr
  unfold timelineQuery at hr
  rw [List.mem_insertionSort, List.mem_filter] at hr
  have hp := (timelineFilter_eq_true_iff s e r).mp hr.2
  exact ⟨hp.2.2, hp.1, hp.2.1⟩

/-- A session row whose raw session_start sits exactly at the end bound, used
in the C3 counterexample and the C4 witness. -/
def edgeRow : SessionRow :=
  ⟨some "dev", none, none, none, none, "Video", none, 1000, 2000, none, none⟩

/-- C3 (counterexample): with a browser timezone offset of +300 minutes (e.g.
EST), a raw session_start equal to endDate is returned with session_start
shifted 18000000 ms past endDate, refuting the claim that returned rows
satisfy startDate <= session_start <= endDate. -/
theorem timelineSessions_adjusted_out_of_range :
    ∃ out, getTimelineSessions (fun _ => 300) ⟨true, some [edgeRow]⟩ 0 1000 =
        Except.ok out ∧
      ∃ x ∈ out, ¬ ((0 : Int) ≤ x.session_start ∧ x.session_start ≤ 1000) := by
  refine ⟨_, rfl, ?_⟩
  decide

/-- C4: every row returned by getTimelineSessions carries session_start and
session_end equal to the raw engine timestamps plus the local timezone offset
of the raw instant, in minutes, converted to milliseconds and added. -/
theorem timelineSessions_tz_adjustment (tz : Int → Int) (st : DBState)
    (rows : List SessionRow) (s e : Int) (out : List TimelineSession)
    (hconn : st.conn = some rows)
    (hout : getTimelineSessions tz st s e = Except.ok out) :
    out.map (fun x => (x.session_start, x.session_end)) =
      (timelineQuery rows s e).map (fun r =>
        (r.session_start + tz r.session_start * 60 * 1000,
         r.session_end + tz r.session_end * 60 * 1000)) := by
  unfold getTimelineSessions at hout
  rw [hconn] at hout
  have hval : out = (timelineQuery rows s e).map (timelineConvert tz) := by
    cases hout
    rfl
  subst hval
  rw [List.map_map]
  rfl

/-- C5: after any successful initDB call, a second call is a pure no-op: it
performs no effect (no engine instantiation, no fetch, no file registration,
no view creation) and leaves the state exactly as the first call left it. -/
theorem initDB_idempotent (env env2 : InitEnv) (st st1 : DBState)
    (evs : List InitEvent) (h : initDB env st = (st1, evs, Except.ok ())) :
    initDB env2 st1 = (st1, [], Except.ok ()) := by
  cases hdb0 : st.db with
  | true =>
    simp only [initDB, hdb0, if_true, Prod.mk.injEq] at h
    obtain ⟨rfl, -⟩ := h
    simp [initDB, hdb0]
  | false =>
    cases hok : respOk env.fetchStatus with
    | true =>
      simp only [initDB, hdb0, hok, Bool.false_eq_true, if_false, if_true,
        Prod.mk.injEq] at h
      obtain ⟨h1, -⟩ := h
      rw [← h1]
      simp [initDB]
    | false =>
      simp only [initDB, hdb0, hok, Bool.false_eq_true, if_false,
        Prod.mk.injEq] at h
      exact absurd h.2.2 (by simp)

/-- C6: calling any of the four query functions while the connection is unset
fails with the "Database not initialized" error (and, the error branch being
taken before any query is built, issues no query). -/
theorem query_before_init_errors (st : DBState) (h : st.conn = none)
    (mt : MediaType) (lim : Nat) (now : Int) (d : Dimension) (tr : TimeRange)
    (mto : Option MediaType) (cb : CountBy) (tz : Int → Int) (s e : Int) :
    getRecentSessions st mt lim = Except.error "Database not initialized" ∧
    getTopByDimension st now d tr lim mto cb =
      Except.error "Database not initialized" ∧
    getTimeRange st = Except.error "Database not initialized" ∧
    getTimelineSessions tz st s e = Except.error "Database not initialized" := by
  refine ⟨?_, ?_, ?_, ?_⟩ <;>
    simp [getRecentSessions, getTopByDimension, getTimeRange, getTimelineSessions, h]

/-- C8: when the parquet fetch fails after the engine object is assigned, the
module is left with db set and conn unset; every later initDB call is an
immediate successful no-op (no retry of the fetch), and every query function
keeps failing with "Database not initialized". -/
theorem initDB_failure_permanent (env : InitEnv) (st : DBState)
    (h0 : st.db = false) (h1 : st.conn = none)
    (hr : respOk env.fetchStatus = false) :
    initDB env st = (⟨true, none⟩,
      [InitEvent.instantiateEngine, InitEvent.fetchData],
      Except.error ("Failed to fetch parquet: " ++ toString env.fetchStatus)) ∧
    (∀ env2, initDB env2 ⟨true, none⟩ = (⟨true, none⟩, [], Except.ok ())) ∧
    (∀ mt lim, getRecentSessions ⟨true, none⟩ mt lim =
      Except.error "Database not initialized") ∧
    (∀ now d tr lim mt cb, getTopByDimension ⟨true, none⟩ now d tr lim mt cb =
      Except.error "Database not initialized") ∧
    getTimeRange ⟨true, none⟩ = Except.error "Database not initialized" ∧
    (∀ tz s e, getTimelineSessions tz ⟨true, none⟩ s e =
      Except.error "Database not initialized") := by
  refine ⟨?_, ?_, ?_, ?_, ?_, ?_⟩ <;>
    simp [initDB, h0, h1, hr, getRecentSessions, getTopByDimension, getTimeRange,
      getTimelineSessions]

/-- C9: the proxy GET handler returns, on a non-2xx upstream status, a text
error response carrying the upstream status code; on a 2xx upstream status,
the raw upstream bytes unmodified with Content-Type application/octet-stream
and Cache-Control public, max-age=300. -/
theorem proxyGET_contract (up : UpstreamResp) :
    (¬ (200 ≤ up.status ∧ up.status ≤ 299) →
      proxyGET up = ⟨up.status, RespBody.text "Failed to fetch parquet file", []⟩) ∧
    ((200 ≤ up.status ∧ up.status ≤ 299) →
      proxyGET up = ⟨200, RespBody.bytes up.body,
        [("Content-Type", "application/octet-stream"),
         ("Cache-Control", "public, max-age=300")]⟩) := by
  have hiff : respOk up.status = true ↔ (200 ≤ up.status ∧ up.status ≤ 299) := by
    simp [respOk, Bool.and_eq_true, decide_eq_true_eq]
  constructor
  · intro h
    have hf : respOk up.status = false :=
      Bool.eq_false_iff.mpr (fun ht => h (hiff.mp ht))
    simp [proxyGET, hf]
  · intro h
    simp [proxyGET, hiff.mpr h]

/-- C10: on an empty sessions view, getTimeRange succeeds: MIN and MAX are
NULL, the Date constructor coerces null to 0, and the result is the Unix
epoch for both min and max — no empty-dataset condition is signalled. -/
theorem timeRange_empty_epoch (st : DBState) (h : st.conn = some []) :
    getTimeRange st = Except.ok ⟨0, 0⟩ := by
  simp [getTimeRange, h, minStart, maxStart, dateOfNullable]

/-! ## Witnesses: each hypothesised claim theorem applied at a concrete input -/

/-- Witness for C2 at a concrete one-row view. -/
theorem topByDimension_shape_witness :
    ((List.insertionSort countDesc (topGroups [futureRow] 0 Dimension.artist
        TimeRange.day none CountBy.sessions)).take 10).length ≤ 10 ∧
    List.Sorted countDesc ((List.insertionSort countDesc (topGroups [futureRow] 0
        Dimension.artist TimeRange.day none CountBy.sessions)).take 10) ∧
    ∀ g ∈ (List.insertionSort countDesc (topGroups [futureRow] 0 Dimension.artist
        TimeRange.day none CountBy.sessions)).take 10, g.label ≠ "" :=
  topByDimension_shape ⟨true, some [futureRow]⟩ [futureRow] 0 Dimension.artist
    TimeRange.day 10 none CountBy.sessions
    ((List.insertionSort countDesc (topGroups [futureRow] 0 Dimension.artist
        TimeRange.day none CountBy.sessions)).take 10) rfl rfl

/-- Witness for C7 at a concrete one-row view. -/
theorem recentSessions_shape_witness :
    (∀ x ∈ (List.insertionSort startDesc
        ([futureRow].filter (fun r => r.media_type == mtString MediaType.music))).take 10,
      x.media_type = mtString MediaType.music) ∧
    List.Sorted startDesc ((List.insertionSort startDesc
        ([futureRow].filter (fun r => r.media_type == mtString MediaType.music))).take 10) ∧
    ((List.insertionSort startDesc
        ([futureRow].filter (fun r => r.media_type == mtString MediaType.music))).take 10).length ≤ 10 :=
  recentSessions_shape ⟨true, some [futureRow]⟩ [futureRow] MediaType.music 10
    ((List.insertionSort startDesc
        ([futureRow].filter (fun r => r.media_type == mtString MediaType.music))).take 10) rfl rfl

/-- Witness for the amended C1 at a concrete one-row view. -/
theorem topByDimension_lower_cutoff_only_witness :
    (∀ g ∈ (List.insertionSort countDesc (topGroups [futureRow] 0 Dimension.artist
        TimeRange.day none CountBy.sessions)).take 10,
      g.count = aggOf CountBy.sessions
        (groupRows [futureRow] 0 Dimension.artist TimeRange.day none g.label)) ∧
    (∀ r ∈ topFiltered [futureRow] 0 Dimension.artist TimeRange.day none,
      0 - timeRangeDays TimeRange.day * 86400000 ≤ r.session_start) ∧
    timeRangeDays TimeRange.day = 1 ∧ timeRangeDays TimeRange.week = 7 ∧
    timeRangeDays TimeRange.month = 30 :=
  topByDimension_lower_cutoff_only ⟨true, some [futureRow]⟩ [futureRow] 0
    Dimension.artist TimeRange.day 10 none CountBy.sessions
    ((List.insertionSort countDesc (topGroups [futureRow] 0 Dimension.artist
        TimeRange.day none CountBy.sessions)).take 10) rfl rfl

/-- Witness for the amended C3 at a concrete one-row view with zero offset. -/
theorem timelineSessions_raw_bounds_witness :
    (timelineQuery [edgeRow] 0 1000).map (timelineConvert (fun _ => 0)) =
      (timelineQuery [edgeRow] 0 1000).map (timelineConvert (fun _ => 0)) ∧
    (∀ r ∈ timelineQuery [edgeRow] 0 1000,
      r.device_name.isSome = true ∧ 0 ≤ r.session_start ∧ r.session_start ≤ 1000) ∧
    List.Sorted deviceStartLe (timelineQuery [edgeRow] 0 1000) :=
  timelineSessions_raw_bounds (fun _ => 0) ⟨true, some [edgeRow]⟩ [edgeRow] 0 1000
    ((timelineQuery [edgeRow] 0 1000).map (timelineConvert (fun _ => 0))) rfl rfl

/-- Witness for C4 at a concrete one-row view with a +300-minute offset. -/
theorem timelineSessions_tz_adjustment_witness :
    (((timelineQuery [edgeRow] 0 1000).map (timelineConvert (fun _ => 300))).map
        (fun x => (x.session_start, x.session_end))) =
      (timelineQuery [edgeRow] 0 1000).map (fun r =>
        (r.session_start + 300 * 60 * 1000, r.session_end + 300 * 60 * 1000)) :=
  timelineSessions_tz_adjustment (fun _ => 300) ⟨true, some [edgeRow]⟩ [edgeRow] 0 1000
    ((timelineQuery [edgeRow] 0 1000).map (timelineConvert (fun _ => 300))) rfl rfl

/-- Witness for C5: a successful first call, then a second call with a
different environment is a no-op. -/
theorem initDB_idempotent_witness :
    initDB ⟨500, []⟩ ⟨true, some []⟩ = (⟨true, some []⟩, [], Except.ok ()) :=
  initDB_idempotent ⟨200, []⟩ ⟨500, []⟩ ⟨false, none⟩ ⟨true, some []⟩
    [InitEvent.instantiateEngine, InitEvent.fetchData, InitEvent.registerFile,
     InitEvent.connectDB, InitEvent.createView] rfl

/-- Witness for C6 on the fresh (never-initialised) state. -/
theorem query_before_init_errors_witness :
    getRecentSessions ⟨false, none⟩ MediaType.music 10 =
      Except.error "Database not initialized" ∧
    getTopByDimension ⟨false, none⟩ 0 Dimension.artist TimeRange.day 10 none
        CountBy.sessions = Except.error "Database not initialized" ∧
    getTimeRange ⟨false, none⟩ = Except.error "Database not initialized" ∧
    getTimelineSessions (fun _ => 0) ⟨false, none⟩ 0 0 =
      Except.error "Database not initialized" :=
  query_before_init_errors ⟨false, none⟩ rfl MediaType.music 10 0 Dimension.artist
    TimeRange.day none CountBy.sessions (fun _ => 0) 0 0

/-- Witness for C8: a 503 fetch on the fresh state. -/
theorem initDB_failure_permanent_witness :
    initDB ⟨503, []⟩ ⟨false, none⟩ = (⟨true, none⟩,
      [InitEvent.instantiateEngine, InitEvent.fetchData],
      Except.error ("Failed to fetch parquet: " ++ toString (503 : Nat))) ∧
    (∀ env2, initDB env2 ⟨true, none⟩ = (⟨true, none⟩, [], Except.ok ())) ∧
    (∀ mt lim, getRecentSessions ⟨true, none⟩ mt lim =
      Except.error "Database not initialized") ∧
    (∀ now d tr lim mt cb, getTopByDimension ⟨true, none⟩ now d tr lim mt cb =
      Except.error "Database not initialized") ∧
    getTimeRange ⟨true, none⟩ = Except.error "Database not initialized" ∧
    (∀ tz s e, getTimelineSessions tz ⟨true, none⟩ s e =
      Except.error "Database not initialized") :=
  initDB_failure_permanent ⟨503, []⟩ ⟨false, none⟩ rfl rfl rfl

/-- Witness for C9: a 503 upstream response and a 204 upstream response. -/
theorem proxyGET_contract_witness :
    proxyGET ⟨503, [7]⟩ = ⟨503, RespBody.text "Failed to fetch parquet file", []⟩ ∧
    proxyGET ⟨204, [7]⟩ = ⟨200, RespBody.bytes [7],
      [("Content-Type", "application/octet-stream"),
       ("Cache-Control", "public, max-age=300")]⟩ :=
  ⟨(proxyGET_contract ⟨503, [7]⟩).1 (by decide),
   (proxyGET_contract ⟨204, [7]⟩).2 (by decide)⟩

/-- Witness for C10: a state holding an empty sessions view. -/
theorem timeRange_empty_epoch_witness :
    getTimeRange ⟨true, some []⟩ = Except.ok ⟨0, 0⟩ :=
  timeRange_empty_epoch ⟨true, some []⟩ rfl

end MediaViz
